import Mathlib

/-!
Shallow embedding of the request lifecycle and error-propagation pipeline of
`src/app.js` (an Express application).

The embedded stages, in the order `app.js` installs them:
helmet security headers (line 49), JSON body parsing (line 52),
url-encoded body parsing (line 53, a no-op for the behaviours in scope),
the access-log middleware (lines 56-64), the route table (lines 70-93),
the 404 synthesizer (lines 98-103) and the terminal error handler
(lines 106-122).  The process-level fault handlers (lines 125-155) are
embedded separately as `handleFatalFault`.

External collaborators (the Express framework, the winston logger, the V8
runtime, `process.uptime()`) enter the model only through their call
contracts: the logger never raises into the caller, a constructed error
carries a stack string, `process.uptime()` yields a number.  Those contract
facts appear as hypotheses of the theorems, never baked into definitions.
-/

namespace SetupACI

/-- HTTP methods.  `src/app.js` registers only GET routes. -/
inductive Method
  | GET
  | POST
  | PUT
  | DELETE
  | PATCH
  | HEAD
  | OPTIONS
deriving DecidableEq

/-- The method name as Express exposes it in `req.method`. -/
def Method.str : Method → String
  | Method.GET => "GET"
  | Method.POST => "POST"
  | Method.PUT => "PUT"
  | Method.DELETE => "DELETE"
  | Method.PATCH => "PATCH"
  | Method.HEAD => "HEAD"
  | Method.OPTIONS => "OPTIONS"

/-- A flat JSON value: every `res.json` call in `src/app.js` passes an object
whose values are strings or numbers, so this non-recursive type suffices. -/
inductive JVal
  | str (s : String)
  | num (q : Rat)
deriving DecidableEq

/-- A response body: empty until written, plain text via `res.send`, or a flat
JSON object via `res.json` (field order as in the source object literal). -/
inductive Body
  | empty
  | text (s : String)
  | jsonObj (fields : List (String × JVal))
deriving DecidableEq

/-- winston log levels used by `src/app.js`. -/
inductive Level
  | debug
  | info
  | warn
  | error
deriving DecidableEq

/-- A structured log record handed to the winston logger: level, message and
the attribute object of the call (attribute values rendered as strings). -/
structure LogRecord where
  level : Level
  message : String
  attrs : List (String × String) := []
deriving DecidableEq

/-- An incoming HTTP request.  `originalUrl` is the `req.originalUrl` of Express
(the requested URL path, query string included); `path` is the route-matching
path.  `jsonBodyMalformed` records the outcome of the external JSON parser on
the request body (meaningful only under an `application/json` content type),
and `parseErrMessage` its diagnostic message in the malformed case. -/
structure Request where
  method : Method
  originalUrl : String
  path : String
  contentType : Option String := none
  jsonBodyMalformed : Bool := false
  parseErrMessage : String := ""
  ip : String := ""
  userAgent : String := ""
deriving DecidableEq

/-- The response under construction.  Express starts every response at status
200; `writes` counts terminal body writes (`res.send` / `res.json`). -/
structure Response where
  status : Nat := 200
  headers : List (String × String) := []
  body : Body := Body.empty
  writes : Nat := 0
deriving DecidableEq

/-- `res.status(c)` from `src/app.js`. -/
def Response.setStatus (r : Response) (c : Nat) : Response :=
  { r with status := c }

/-- `res.send(s)`: one terminal write of a text body (Express adds a
text content type). -/
def Response.send (r : Response) (s : String) : Response :=
  { r with
      headers := r.headers ++ [("Content-Type", "text/html; charset=utf-8")]
      body := Body.text s
      writes := r.writes + 1 }

/-- `res.json(fields)`: one terminal write of a JSON body (Express adds a
JSON content type). -/
def Response.json (r : Response) (fields : List (String × JVal)) : Response :=
  { r with
      headers := r.headers ++ [("Content-Type", "application/json; charset=utf-8")]
      body := Body.jsonObj fields
      writes := r.writes + 1 }

/-- The error value passed along the chain via `next(error)`: a message, the
optional ad hoc `status` field (`error.status = 404` in the 404 middleware,
400 from the body parser) and the `stack` capture of the underlying
`Error` object. -/
structure PipelineError where
  message : String
  status : Option Nat := none
  errStack : String
deriving DecidableEq

/-- The process environment the pipeline reads: whether `NODE_ENV` equals
`production`, the `process.uptime()` reading at handling time, whether the
transports of the logger succeed for this request, and the V8 collaborator
that attaches a stack string to a freshly constructed `Error` with a given
message. -/
structure Env where
  production : Bool
  uptime : Rat
  logSinkOk : Bool
  stackFor : String → String

/-- The winston logger contract: a log call appends the record to the
delivered stream when the transports succeed and silently drops it when they
fail; in either case the call returns to the caller instead of raising
(winston surfaces transport failures as asynchronous events, never as
exceptions at the logging call site). -/
def emitLog (env : Env) (logs : List LogRecord) (r : LogRecord) : List LogRecord :=
  if env.logSinkOk then logs ++ [r] else logs

/-- The default header set installed by `helmet()` (`src/app.js` line 49).
The exact set depends on the helmet version; what the pipeline relies on is
only that it is one fixed set applied before every other stage, so a
representative fixed default set is embedded (the Content-Security-Policy
entry, whose default value is a long quoted directive list, is elided). -/
def helmetHeaders : List (String × String) :=
  [ ("Cross-Origin-Opener-Policy", "same-origin"),
    ("Cross-Origin-Resource-Policy", "same-origin"),
    ("Origin-Agent-Cluster", "?1"),
    ("Referrer-Policy", "no-referrer"),
    ("Strict-Transport-Security", "max-age=15552000; includeSubDomains"),
    ("X-Content-Type-Options", "nosniff"),
    ("X-DNS-Prefetch-Control", "off"),
    ("X-Download-Options", "noopen"),
    ("X-Frame-Options", "SAMEORIGIN"),
    ("X-Permitted-Cross-Domain-Policies", "none"),
    ("X-XSS-Protection", "0") ]

/-- The security-header stage, `app.use(helmet())`: sets the hardening
headers on the response before any later stage runs. -/
def securityStage (r : Response) : Response :=
  { r with headers := r.headers ++ helmetHeaders }

/-- The body-parsing stage, `app.use(express.json())`: under an
`application/json` content type a malformed body makes the external parser
forward a `SyntaxError` carrying `status = 400` into the chain; otherwise
the stage populates `request.body` and continues.  `express.urlencoded`
(line 53) raises no error for the behaviours in scope and is a no-op here. -/
def jsonBodyStage (env : Env) (req : Request) : Option PipelineError :=
  if req.contentType = some "application/json" ∧ req.jsonBodyMalformed = true then
    some { message := req.parseErrMessage
           status := some 400
           errStack := env.stackFor req.parseErrMessage }
  else none

/-- The access-log record of the logging middleware (`src/app.js` 56-64):
one info-level record with method, originalUrl, client ip and user agent. -/
def accessLogRecord (req : Request) : LogRecord :=
  { level := Level.info
    message := "Incoming Request: " ++ req.method.str ++ " " ++ req.originalUrl
    attrs := [("ip", req.ip), ("userAgent", req.userAgent)] }

/-- The registered routes of `src/app.js`: the app-level `GET /` (line 91)
and the api router mounted at `/api` with `GET /`, `GET /health`,
`GET /data` (lines 72-85). -/
inductive Route
  | root
  | apiRoot
  | apiHealth
  | apiData
deriving DecidableEq

/-- Express default path matching: case-insensitive and non-strict (a single
trailing slash is ignored except on the bare root). -/
def normalizePath (p : String) : String :=
  let cs := p.data.map Char.toLower
  if 1 < cs.length ∧ cs.getLast? = some '/' then String.mk cs.dropLast else String.mk cs

/-- Router dispatch over the table registered in `src/app.js`.  All routes
are GET routes; the api router is mounted under the `/api` prefix, so its
`/` route answers `/api` (and `/api/`). -/
def matchRoute (m : Method) (p : String) : Option Route :=
  match m with
  | Method.GET =>
      let n := normalizePath p
      if n = "/" then some Route.root
      else if n = "/api" then some Route.apiRoot
      else if n = "/api/health" then some Route.apiHealth
      else if n = "/api/data" then some Route.apiData
      else none
  | _ => none

/-- The route handlers of `src/app.js` lines 72-93, each performing exactly
one terminal write; the health handler also emits its info log line. -/
def runRoute (env : Env) (rt : Route) (res : Response) (logs : List LogRecord) :
    Response × List LogRecord :=
  match rt with
  | Route.root =>
      (res.send "Welcome to the Node.js application! Check /api for API endpoints, or /api/health for status.", logs)
  | Route.apiRoot =>
      (res.send "Hello from setup-a-ci Node.js app!", logs)
  | Route.apiHealth =>
      ((res.setStatus 200).json [("status", JVal.str "healthy"), ("uptime", JVal.num env.uptime)],
       emitLog env logs { level := Level.info, message := "Health check requested." })
  | Route.apiData =>
      (res.json [("message", JVal.str "This is some protected data!")], logs)

/-- The PipelineError synthesized by the 404 middleware (`src/app.js` 98-103):
message `Not Found - <originalUrl>`, status 404, stack from the freshly
constructed `Error`. -/
def notFoundError (env : Env) (req : Request) : PipelineError :=
  { message := "Not Found - " ++ req.originalUrl
    status := some 404
    errStack := env.stackFor ("Not Found - " ++ req.originalUrl) }

/-- The warn-level record the 404 middleware logs. -/
def notFoundLogRecord (req : Request) : LogRecord :=
  { level := Level.warn
    message := "404 Not Found: " ++ req.method.str ++ " " ++ req.originalUrl }

/-- The production stack redaction marker of `src/app.js` line 112. -/
def prodStackMarker : String := "🥞"

/-- The error-level record the terminal error handler logs
(`src/app.js` 114-121): always the raw `err.stack`, plus status, url
and method. -/
def errorLogRecord (e : PipelineError) (req : Request) : LogRecord :=
  { level := Level.error
    message := "Error: " ++ e.message
    attrs := [ ("status", toString (e.status.getD 500)),
               ("stack", e.errStack),
               ("url", req.originalUrl),
               ("method", req.method.str) ] }

/-- The terminal error handler (`src/app.js` 106-122): status from
`err.status` defaulting to 500, one JSON write of the message/stack envelope
(stack redacted in production), then the error-level log. -/
def errorHandler (env : Env) (e : PipelineError) (req : Request)
    (res : Response) (logs : List LogRecord) : Response × List LogRecord :=
  let statusCode := e.status.getD 500
  let res := res.setStatus statusCode
  let res := res.json
    [ ("message", JVal.str e.message),
      ("stack", JVal.str (if env.production then prodStackMarker else e.errStack)) ]
  (res, emitLog env logs (errorLogRecord e req))

/-- The whole middleware chain of `src/app.js` in installation order:
helmet, body parsing (a parse failure short-circuits past the remaining
plain middleware straight to the error handler), access log, router
dispatch, 404 synthesis, terminal error handler.  Returns the response and
the delivered log stream. -/
def handleRequest (env : Env) (req : Request) : Response × List LogRecord :=
  let res := securityStage {}
  match jsonBodyStage env req with
  | some e => errorHandler env e req res []
  | none =>
      let logs := emitLog env [] (accessLogRecord req)
      match matchRoute req.method req.path with
      | some rt => runRoute env rt res logs
      | none =>
          let logs := emitLog env logs (notFoundLogRecord req)
          errorHandler env (notFoundError env req) req res logs

/-- A process-fatal fault: a listen-socket bind error (`src/app.js` 127-135,
with its Node error code), an unhandled promise rejection (138-145) or an
uncaught synchronous exception (148-155). -/
inductive FatalFault
  | bindError (code : String) (message : String) (errStack : String)
  | unhandledRejection (reason : String)
  | uncaughtException (message : String) (errStack : String)
deriving DecidableEq

/-- Outcome of a process-fatal fault: the log records emitted, whether
`server.close` was invoked before exiting, and the process exit code. -/
structure FaultOutcome where
  logs : List LogRecord
  serverClosed : Bool
  exitCode : Nat
deriving DecidableEq

/-- The process-level fault handling of `src/app.js` lines 125-155: the
startup error handler distinguishes `EADDRINUSE` from other bind errors
(both exit 1); the unhandledRejection and uncaughtException handlers log,
close the server gracefully, and exit 1. -/
def handleFatalFault (port : Nat) : FatalFault → FaultOutcome
  | FatalFault.bindError code message st =>
      if code = "EADDRINUSE" then
        { logs := [ { level := Level.error
                      message := "Port " ++ toString port ++ " is already in use. Please stop the other process or choose a different port." } ]
          serverClosed := false
          exitCode := 1 }
      else
        { logs := [ { level := Level.error
                      message := "Server startup failed: " ++ message
                      attrs := [("stack", st)] } ]
          serverClosed := false
          exitCode := 1 }
  | FatalFault.unhandledRejection reason =>
      { logs := [ { level := Level.error
                    message := "Unhandled Rejection at:"
                    attrs := [("reason", reason)] } ]
        serverClosed := true
        exitCode := 1 }
  | FatalFault.uncaughtException message st =>
      { logs := [ { level := Level.error
                    message := "Uncaught Exception: " ++ message
                    attrs := [("stack", st)] } ]
        serverClosed := true
        exitCode := 1 }

/-! ### Shared lemmas -/

/-- Every branch of the chain performs exactly one terminal write: the three
plain routes write via `res.send` or `res.json`, the health route via
`res.status(200).json`, and both error paths (parse failure, 404) end in the
single `res.json` of the terminal error handler. -/
theorem writes_after_handle (env : Env) (req : Request) :
    ((handleRequest env req).1).writes = 1 := by
  unfold handleRequest
  split
  · simp [errorHandler, securityStage, Response.setStatus, Response.json]
  · split
    · rename_i rt _
      cases rt <;>
        simp [runRoute, securityStage, Response.send, Response.json, Response.setStatus]
    · simp [errorHandler, securityStage, Response.setStatus, Response.json]

/-! ### Claims -/

/-- Claim C2: for every PipelineError consumed by the terminal error stage,
the response status equals the status field of the error, or 500 when that
field is absent, and the response body is a JSON object with exactly the
fields message (equal to the message of the error) and stack. -/
theorem error_stage_status_and_envelope (env : Env) (e : PipelineError)
    (req : Request) (res : Response) (logs : List LogRecord) :
    ((errorHandler env e req res logs).1).status = e.status.getD 500 ∧
    ∃ st, ((errorHandler env e req res logs).1).body =
      Body.jsonObj [("message", JVal.str e.message), ("stack", JVal.str st)] :=
  ⟨rfl, ⟨if env.production then prodStackMarker else e.errStack, rfl⟩⟩

/-- Claim C6: the response produced for a request is the same whether the
log transports succeed or fail: a logging failure is swallowed by the logger
collaborator, never surfaces as a request error, and the chain proceeds to
the next stage unchanged. -/
theorem log_failure_swallowed (env : Env) (req : Request) (b : Bool) :
    (handleRequest { env with logSinkOk := b } req).1 = (handleRequest env req).1 := by
  unfold handleRequest
  cases hc : jsonBodyStage env req with
  | some e =>
      have hc2 : jsonBodyStage { env with logSinkOk := b } req = some e := hc
      rw [hc2]
      rfl
  | none =>
      have hc2 : jsonBodyStage { env with logSinkOk := b } req = none := hc
      rw [hc2]
      cases hm : matchRoute req.method req.path with
      | some rt => cases rt <;> rfl
      | none => rfl

/-- Claim C8: every process-fatal fault (a bind failure with the
address-in-use code or any other code, an unhandled rejection, an uncaught
exception) produces an error-level log record and an exit with code 1,
never any other code. -/
theorem fatal_fault_exits_one (port : Nat) (f : FatalFault) :
    (handleFatalFault port f).exitCode = 1 ∧
    ∃ r ∈ (handleFatalFault port f).logs, r.level = Level.error := by
  cases f with
  | bindError code message st =>
      by_cases h : code = "EADDRINUSE" <;> simp [handleFatalFault, h]
  | unhandledRejection reason => simp [handleFatalFault]
  | uncaughtException message st => simp [handleFatalFault]

/-- Claim C9: every accepted request is answered by exactly one terminal
response write: it either reaches a route handler that writes once, or falls
through to the 404/error stage, which writes once. -/
theorem request_answered_exactly_once (env : Env) (req : Request) :
    ((handleRequest env req).1).writes = 1 :=
  writes_after_handle env req

/-! ### Concrete witness inputs -/

/-- A development-mode environment with healthy log transports. -/
def envDev : Env :=
  { production := false
    uptime := 0
    logSinkOk := true
    stackFor := fun m => "Error: " ++ m }

/-- A production-mode environment with healthy log transports. -/
def envProd : Env :=
  { production := true
    uptime := 0
    logSinkOk := true
    stackFor := fun m => "Error: " ++ m }

/-- A GET request for a path no route answers. -/
def reqNF : Request :=
  { method := Method.GET, originalUrl := "/nonexistent", path := "/nonexistent" }

/-- A GET request for the health endpoint. -/
def reqHealth : Request :=
  { method := Method.GET, originalUrl := "/api/health", path := "/api/health" }

/-- A POST with a JSON content type whose body the external parser rejects. -/
def reqBadJson : Request :=
  { method := Method.POST
    originalUrl := "/api/data"
    path := "/api/data"
    contentType := some "application/json"
    jsonBodyMalformed := true
    parseErrMessage := "Unexpected token x in JSON at position 0" }

/-- A pipeline error with a captured stack, as raised by application code. -/
def errBoom : PipelineError :=
  { message := "boom", status := none, errStack := "Error: boom" }

/-- Claim C1: a request whose (method, path) matches no registered route gets
status 404 and an error-envelope JSON body whose message field equals
`Not Found - <requested url>`. -/
theorem unmatched_route_404 (env : Env) (req : Request)
    (hmatch : matchRoute req.method req.path = none)
    (hbody : ¬(req.contentType = some "application/json" ∧ req.jsonBodyMalformed = true)) :
    ((handleRequest env req).1).status = 404 ∧
    ∃ st, ((handleRequest env req).1).body =
      Body.jsonObj [("message", JVal.str ("Not Found - " ++ req.originalUrl)),
                    ("stack", JVal.str st)] := by
  have hj : jsonBodyStage env req = none := by
    unfold jsonBodyStage
    exact if_neg hbody
  unfold handleRequest
  rw [hj, hmatch]
  exact ⟨rfl, ⟨if env.production then prodStackMarker
               else (notFoundError env req).errStack, rfl⟩⟩

/-- Witness for C1 at the concrete request `GET /nonexistent`. -/
theorem unmatched_route_404_check :
    ((handleRequest envDev reqNF).1).status = 404 ∧
    ∃ st, ((handleRequest envDev reqNF).1).body =
      Body.jsonObj [("message", JVal.str ("Not Found - " ++ reqNF.originalUrl)),
                    ("stack", JVal.str st)] :=
  unmatched_route_404 envDev reqNF (by decide) (by decide)

/-- Claim C3: in production mode the stack field of the error envelope is the
fixed redaction marker, never the raw trace; otherwise it is the raw trace of
the error, which is non-empty whenever the captured stack is (the V8
contract for constructed errors). -/
theorem stack_redaction (env : Env) (e : PipelineError) (req : Request)
    (res : Response) (logs : List LogRecord) (hs : e.errStack ≠ "") :
    ((errorHandler env e req res logs).1).body =
      Body.jsonObj [("message", JVal.str e.message),
        ("stack", JVal.str (if env.production then prodStackMarker else e.errStack))] ∧
    (if env.production then prodStackMarker else e.errStack) ≠ "" := by
  refine ⟨rfl, ?_⟩
  cases hb : env.production with
  | true => simp [prodStackMarker]
  | false => simpa using hs

/-- Witness for C3 at a concrete development-mode error. -/
theorem stack_redaction_check :
    ((errorHandler envDev errBoom reqNF {} []).1).body =
      Body.jsonObj [("message", JVal.str errBoom.message),
        ("stack", JVal.str (if envDev.production then prodStackMarker else errBoom.errStack))] ∧
    (if envDev.production then prodStackMarker else errBoom.errStack) ≠ "" :=
  stack_redaction envDev errBoom reqNF {} [] (by decide)

/-- Claim C4: a `GET /api/health` request (one the body parser does not
reject) always yields status 200 and the JSON body with status healthy and
the uptime number, which is at least 0 by the `process.uptime()` contract;
the handler depends on no prior request history (the chain is a pure
function of the environment and the request). -/
theorem health_route_ok (env : Env) (req : Request)
    (hmatch : matchRoute req.method req.path = some Route.apiHealth)
    (hbody : ¬(req.contentType = some "application/json" ∧ req.jsonBodyMalformed = true))
    (hup : 0 ≤ env.uptime) :
    ((handleRequest env req).1).status = 200 ∧
    ((handleRequest env req).1).body =
      Body.jsonObj [("status", JVal.str "healthy"), ("uptime", JVal.num env.uptime)] ∧
    0 ≤ env.uptime := by
  have hj : jsonBodyStage env req = none := by
    unfold jsonBodyStage
    exact if_neg hbody
  unfold handleRequest
  rw [hj, hmatch]
  exact ⟨rfl, rfl, hup⟩

/-- Witness for C4 at the concrete request `GET /api/health`. -/
theorem health_route_ok_check :
    ((handleRequest envDev reqHealth).1).status = 200 ∧
    ((handleRequest envDev reqHealth).1).body =
      Body.jsonObj [("status", JVal.str "healthy"), ("uptime", JVal.num envDev.uptime)] ∧
    0 ≤ envDev.uptime :=
  health_route_ok envDev reqHealth (by decide) (by decide) (by decide)

/-- Claim C5: every response, including 404 and error responses, carries the
security headers: the helmet stage runs first and no later stage removes a
header. -/
theorem security_headers_on_every_response (env : Env) (req : Request)
    (p : String × String) (hp : p ∈ helmetHeaders) :
    p ∈ ((handleRequest env req).1).headers := by
  unfold handleRequest
  split
  · simp only [errorHandler, Response.setStatus, Response.json, securityStage,
      List.nil_append, List.mem_append]
    exact Or.inl hp
  · split
    · rename_i rt _
      cases rt <;>
        · simp only [runRoute, Response.send, Response.json, Response.setStatus,
            securityStage, List.nil_append, List.mem_append]
          exact Or.inl hp
    · simp only [errorHandler, Response.setStatus, Response.json, securityStage,
        List.nil_append, List.mem_append]
      exact Or.inl hp

/-- Witness for C5: the content-type-sniffing header is on the 404 response
for `GET /nonexistent`. -/
theorem security_headers_on_every_response_check :
    ("X-Content-Type-Options", "nosniff") ∈ helmetHeaders ∧
    ("X-Content-Type-Options", "nosniff") ∈ ((handleRequest envDev reqNF).1).headers :=
  ⟨by decide,
   security_headers_on_every_response envDev reqNF ("X-Content-Type-Options", "nosniff")
     (by decide)⟩

/-- Claim C7: a request with a JSON content type and a body the parser
rejects gets status 400 and the standard error envelope with the diagnostic
of the parser as message; the chain stays a total function, so every
subsequent request is still answered by exactly one response write. -/
theorem malformed_json_client_error (env : Env) (req : Request)
    (hc : req.contentType = some "application/json")
    (hm : req.jsonBodyMalformed = true) :
    ((handleRequest env req).1).status = 400 ∧
    (∃ st, ((handleRequest env req).1).body =
      Body.jsonObj [("message", JVal.str req.parseErrMessage), ("stack", JVal.str st)]) ∧
    ∀ req2 : Request, ((handleRequest env req2).1).writes = 1 := by
  have hj : jsonBodyStage env req =
      some { message := req.parseErrMessage
             status := some 400
             errStack := env.stackFor req.parseErrMessage } := by
    unfold jsonBodyStage
    exact if_pos ⟨hc, hm⟩
  unfold handleRequest
  rw [hj]
  exact ⟨rfl,
    ⟨if env.production then prodStackMarker else env.stackFor req.parseErrMessage, rfl⟩,
    fun req2 => writes_after_handle env req2⟩

/-- Witness for C7 at a concrete malformed-JSON POST. -/
theorem malformed_json_client_error_check :
    ((handleRequest envDev reqBadJson).1).status = 400 ∧
    (∃ st, ((handleRequest envDev reqBadJson).1).body =
      Body.jsonObj [("message", JVal.str reqBadJson.parseErrMessage), ("stack", JVal.str st)]) ∧
    ∀ req2 : Request, ((handleRequest envDev req2).1).writes = 1 :=
  malformed_json_client_error envDev reqBadJson (by decide) (by decide)

/-- Claim C10: the error-level record the terminal error stage hands to the
logger carries the raw captured stack even in production mode: redaction
applies only to the response body, never to the log output. -/
theorem error_log_keeps_raw_trace (env : Env) (e : PipelineError) (req : Request)
    (res : Response) (logs : List LogRecord) (_hp : env.production = true) :
    (errorHandler env e req res logs).2 = emitLog env logs (errorLogRecord e req) ∧
    ("stack", e.errStack) ∈ (errorLogRecord e req).attrs ∧
    (errorLogRecord e req).level = Level.error :=
  ⟨rfl, by simp [errorLogRecord], rfl⟩

/-- Witness for C10 at a concrete production-mode error. -/
theorem error_log_keeps_raw_trace_check :
    (errorHandler envProd errBoom reqNF {} []).2 =
      emitLog envProd [] (errorLogRecord errBoom reqNF) ∧
    ("stack", errBoom.errStack) ∈ (errorLogRecord errBoom reqNF).attrs ∧
    (errorLogRecord errBoom reqNF).level = Level.error :=
  error_log_keeps_raw_trace envProd errBoom reqNF {} [] rfl

end SetupACI
